import Mathlib

/-!
Shallow embedding of the enrollment (Matrícula) subsystem of the
university-records CRUD API, together with proofs of its specified
behaviour.  Entities are records, the persistent store is a record of
lists, `session.get` is `List.find?` on the primary key, filtered
`select` is `List.filter`, and each HTTP handler becomes a function
`Store → ... → Except ApiError (result × Store)` (read-only handlers
omit the store in the result).  A raised `HTTPException` becomes
`Except.error`, which by construction discards every pending mutation,
matching the one-transaction-per-request model.
-/

namespace Parcial2

/-- Estudiante row (src/models.py, `EstudianteBase` + table id). -/
structure Estudiante where
  id : Nat
  cedula : String
  nombre : String
  email : String
  semestre : String
  activo : Bool
deriving Repr, DecidableEq

/-- Profesor row (src/models.py, `ProfesorBase` + table id and optional
department reference). -/
structure Profesor where
  id : Nat
  cedula : String
  nombre : String
  email : String
  titulo : String
  activo : Bool
  departamento_id : Option Nat
deriving Repr, DecidableEq

/-- Departamento row: the fields the department endpoints read and write
(`codigo`, `nombre`; src/models.py `DepartamentoBase` + table id). -/
structure Departamento where
  id : Nat
  codigo : String
  nombre : String
deriving Repr, DecidableEq

/-- Curso row (src/models.py, `CursoBase` + table id and the professor and
department foreign keys).  Note the source model has no `activo` flag for
courses. -/
structure Curso where
  id : Nat
  codigo : String
  nombre : String
  creditos : Int
  horario : String
  profesor_id : Nat
  departamento_id : Nat
deriving Repr, DecidableEq

/-- Matrícula row (src/models.py, `Matricula`): composite primary key
(estudiante_id, curso_id), optional final grade and derived pass flag.
The grade is modelled as a rational number. -/
structure Matricula where
  estudiante_id : Nat
  curso_id : Nat
  nota_final : Option Rat := none
  aprobado : Option Bool := none
deriving Repr, DecidableEq

/-- The relational store: one list per table. -/
structure Store where
  estudiantes : List Estudiante := []
  profesores : List Profesor := []
  departamentos : List Departamento := []
  cursos : List Curso := []
  matriculas : List Matricula := []
deriving Repr, DecidableEq

/-- A raised `HTTPException`: either a plain detail string or the
aggregate `{mensaje, errores}` body used by the collect-all-errors
endpoints. -/
inductive ApiError where
  | http (status : Nat) (detail : String)
  | httpAgg (status : Nat) (mensaje : String) (errores : List String)
deriving Repr, DecidableEq

/-- `session.get(Estudiante, id)`. -/
def getEstudiante (st : Store) (id : Nat) : Option Estudiante :=
  st.estudiantes.find? (fun e => e.id == id)

/-- `session.get(Profesor, id)`. -/
def getProfesor (st : Store) (id : Nat) : Option Profesor :=
  st.profesores.find? (fun p => p.id == id)

/-- `session.get(Departamento, id)`. -/
def getDepartamento (st : Store) (id : Nat) : Option Departamento :=
  st.departamentos.find? (fun d => d.id == id)

/-- `session.get(Curso, id)`. -/
def getCurso (st : Store) (id : Nat) : Option Curso :=
  st.cursos.find? (fun c => c.id == id)

/-- `select(Matricula).where(estudiante_id == sid, curso_id == cid)`. -/
def matriculasDe (st : Store) (sid cid : Nat) : List Matricula :=
  st.matriculas.filter (fun m => m.estudiante_id == sid && m.curso_id == cid)

/-- `session.get(Matricula, (sid, cid))`: primary-key lookup. -/
def getMatricula (st : Store) (sid cid : Nat) : Option Matricula :=
  st.matriculas.find? (fun m => m.estudiante_id == sid && m.curso_id == cid)

/-- Next autoincrement id for a table. -/
def freshId (ids : List Nat) : Nat :=
  ids.foldr max 0 + 1

/-- Request body of the enroll endpoints (src/models.py `MatriculaCreate`). -/
structure MatriculaCreate where
  estudiante_id : Nat
  curso_id : Nat
deriving Repr, DecidableEq

/-- The `errores` list accumulated by `crear_matricula`
(src/matriculas.py lines 11-31): student missing / student inactive,
course missing, and — when both entities resolve — an existing
enrollment for the pair. -/
def matriculaErrores (st : Store) (req : MatriculaCreate) : List String :=
  (match getEstudiante st req.estudiante_id with
   | none => ["Estudiante no encontrado"]
   | some e => if e.activo then [] else ["El estudiante no está activo"])
  ++ (match getCurso st req.curso_id with
      | none => ["Curso no encontrado"]
      | some _ => [])
  ++ (match getEstudiante st req.estudiante_id, getCurso st req.curso_id with
      | some _, some c =>
        if (matriculasDe st req.estudiante_id req.curso_id).head?.isSome then
          ["El estudiante ya está matriculado en el curso " ++ c.nombre]
        else []
      | _, _ => [])

/-- POST /matriculas/ (src/matriculas.py `crear_matricula`): collect all
validation errors; on any error raise the aggregate 400; otherwise insert
the new enrollment with null grade fields. -/
def crear_matricula (st : Store) (req : MatriculaCreate) :
    Except ApiError (Matricula × Store) :=
  let errores := matriculaErrores st req
  if errores.isEmpty then
    let matricula : Matricula :=
      { estudiante_id := req.estudiante_id, curso_id := req.curso_id }
    .ok (matricula, { st with matriculas := st.matriculas ++ [matricula] })
  else
    .error (.httpAgg 400 "Errores de validación" errores)

/-- POST /matriculas/ in the packaged router
(src/app/routers/matricula.py `matricular_estudiante`): the
short-circuiting variant wired by src/main.py. -/
def matricular_estudiante (st : Store) (req : MatriculaCreate) :
    Except ApiError (Matricula × Store) :=
  match getEstudiante st req.estudiante_id with
  | none => .error (.http 404 "Estudiante no encontrado")
  | some _ =>
    match getCurso st req.curso_id with
    | none => .error (.http 404 "Curso no encontrado")
    | some _ =>
      if (matriculasDe st req.estudiante_id req.curso_id).head?.isSome then
        .error (.http 409 "El estudiante ya está matriculado en este curso")
      else
        let matricula : Matricula :=
          { estudiante_id := req.estudiante_id, curso_id := req.curso_id }
        .ok (matricula, { st with matriculas := st.matriculas ++ [matricula] })

/-- Response body of DELETE /matriculas/{estudiante_id}/{curso_id}
(src/matriculas.py lines 65-69). -/
structure EliminarMatriculaResponse where
  mensaje : String
  estudiante : String
  curso : String
deriving Repr, DecidableEq

/-- DELETE /matriculas/{estudiante_id}/{curso_id}
(src/matriculas.py `eliminar_matricula`): primary-key lookup, 404 when
absent, otherwise delete that row and report the student and course
names.  `session.delete` removes the row found by the primary-key
lookup, i.e. the first (and, under the key constraint, only) match. -/
def eliminar_matricula (st : Store) (sid cid : Nat) :
    Except ApiError (EliminarMatriculaResponse × Store) :=
  match getMatricula st sid cid with
  | none => .error (.http 404 "Matrícula no encontrada")
  | some _ =>
    let resp : EliminarMatriculaResponse :=
      { mensaje := "Matrícula eliminada exitosamente"
        estudiante := (getEstudiante st sid).elim "Desconocido" (fun e => e.nombre)
        curso := (getCurso st cid).elim "Desconocido" (fun c => c.nombre) }
    let st' := { st with
      matriculas :=
        st.matriculas.eraseP (fun m => m.estudiante_id == sid && m.curso_id == cid) }
    .ok (resp, st')

/-- GET /matriculas/buscar/curso/{curso_id}
(src/matriculas.py `buscar_matriculas_por_curso`): 404 when the course is
missing, 404 again when the course has no enrollments, else the list. -/
def buscar_matriculas_por_curso (st : Store) (cid : Nat) :
    Except ApiError (List Matricula) :=
  match getCurso st cid with
  | none => .error (.http 404 "Curso no encontrado")
  | some _ =>
    let matriculas := st.matriculas.filter (fun m => m.curso_id == cid)
    if matriculas.isEmpty then
      .error (.http 404 "No hay estudiantes matriculados en este curso")
    else
      .ok matriculas

/-- `estudiante.cursos`: the many-to-many relationship through the
`Matricula` link table — one course per enrollment row of the student
whose course actually exists. -/
def cursosDeEstudiante (st : Store) (sid : Nat) : List Curso :=
  (st.matriculas.filter (fun m => m.estudiante_id == sid)).filterMap
    (fun m => getCurso st m.curso_id)

/-- Response body of DELETE /estudiantes/{estudiante_id}
(src/app/routers/estudiantes.py lines 220-226). -/
structure EliminarEstudianteResponse where
  mensaje : String
  estudiante_id : Nat
  nombre : String
  activo : Bool
  cursos_desmatriculados : Nat
deriving Repr, DecidableEq

/-- DELETE /estudiantes/{estudiante_id}
(src/app/routers/estudiantes.py `eliminar_estudiante`, the variant wired
by src/main.py): 404 when missing, 400 when already inactive; otherwise
count the student's linked courses, delete every enrollment of the
student when that count is positive, soft-deactivate the student, and
report the count. -/
def eliminar_estudiante (st : Store) (sid : Nat) :
    Except ApiError (EliminarEstudianteResponse × Store) :=
  match getEstudiante st sid with
  | none => .error (.http 404 "Estudiante no encontrado")
  | some e =>
    if e.activo then
      let cantidad_cursos := (cursosDeEstudiante st sid).length
      let matriculas' :=
        if cantidad_cursos > 0 then
          st.matriculas.filter (fun m => !(m.estudiante_id == sid))
        else
          st.matriculas
      let st' := { st with
        matriculas := matriculas'
        estudiantes := st.estudiantes.map
          (fun x => if x.id == sid then { x with activo := false } else x) }
      .ok ({ mensaje := "Estudiante desactivado exitosamente"
             estudiante_id := sid
             nombre := e.nombre
             activo := false
             cursos_desmatriculados := cantidad_cursos }, st')
    else
      .error (.http 400 "El estudiante ya está inactivo")

/-- Python's `str.strip()`: drop whitespace from both ends.  (Defined
over the character list so that concrete witnesses evaluate.) -/
def pyStrip (s : String) : String :=
  ⟨((s.toList.dropWhile Char.isWhitespace).reverse.dropWhile
      Char.isWhitespace).reverse⟩

/-- Python's `str.upper()` (over the character list). -/
def pyUpper (s : String) : String :=
  ⟨s.toList.map Char.toUpper⟩

/-- Python's `str.lower()` (over the character list). -/
def pyLower (s : String) : String :=
  ⟨s.toList.map Char.toLower⟩

/-- Python's `str.isalpha`: nonempty and every character alphabetic. -/
def pyIsAlpha (s : String) : Bool :=
  !s.toList.isEmpty && s.toList.all Char.isAlpha

/-- Request body of POST /departamentos/ (src/models.py
`DepartamentoCreate`). -/
structure DepartamentoCreate where
  codigo : String
  nombre : String
deriving Repr, DecidableEq

/-- The `errores` list accumulated by `crear_departamento`
(src/departamento.py lines 15-35), after the code has been uppercased:
format checks first, then the uniqueness check against the already
uppercased code, then the name check. -/
def departamentoErrores (st : Store) (codigo nombre : String) : List String :=
  (if (pyStrip codigo).isEmpty then ["El código no puede estar vacío"]
   else if !pyIsAlpha codigo then ["El código solo puede contener letras"]
   else if codigo.length < 2 || codigo.length > 5 then
     ["El código debe tener entre 2 y 5 letras"]
   else if ((st.departamentos.filter (fun d => d.codigo == codigo)).head?).isSome then
     ["El código del departamento ya existe"]
   else [])
  ++ (if (pyStrip nombre).isEmpty then ["El nombre no puede estar vacío"] else [])

/-- POST /departamentos/ (src/departamento.py `crear_departamento`):
uppercase the code first, collect all validation errors (including the
uniqueness check against the uppercased code), and persist the
uppercased code. -/
def crear_departamento (st : Store) (req : DepartamentoCreate) :
    Except ApiError (Departamento × Store) :=
  let codigo := pyUpper req.codigo
  let errores := departamentoErrores st codigo req.nombre
  if errores.isEmpty then
    let departamento : Departamento :=
      { id := freshId (st.departamentos.map (fun d => d.id))
        codigo := codigo
        nombre := req.nombre }
    .ok (departamento, { st with departamentos := st.departamentos ++ [departamento] })
  else
    .error (.httpAgg 400 "Errores de validación" errores)

/-- GET /departamentos/buscar/codigo/{codigo}
(src/departamento.py `buscar_por_codigo`): uppercase the query key, then
exact-match lookup; 404 on no match. -/
def buscar_por_codigo (st : Store) (codigo : String) :
    Except ApiError Departamento :=
  let codigoU := pyUpper codigo
  match (st.departamentos.filter (fun d => d.codigo == codigoU)).head? with
  | none => .error (.http 404 "Departamento no encontrado")
  | some departamento => .ok departamento

/-- `departamento.profesores`: professors whose `departamento_id`
references the department. -/
def profesoresDe (st : Store) (did : Nat) : List Profesor :=
  st.profesores.filter (fun p => p.departamento_id == some did)

/-- `departamento.cursos`: courses whose `departamento_id` references
the department. -/
def cursosDeDepartamento (st : Store) (did : Nat) : List Curso :=
  st.cursos.filter (fun c => c.departamento_id == did)

/-- DELETE /departamentos/{departamento_id}
(src/departamento.py `eliminar_departamento`): 404 when missing, 400
when any professor or any course still references the department,
otherwise hard-delete the row. -/
def eliminar_departamento (st : Store) (did : Nat) :
    Except ApiError (Unit × Store) :=
  match getDepartamento st did with
  | none => .error (.http 404 "Departamento no encontrado")
  | some _ =>
    let profesores := profesoresDe st did
    if !profesores.isEmpty then
      .error (.http 400 ("No se puede eliminar el departamento porque tiene "
        ++ toString profesores.length ++ " profesor(es) asignado(s)"))
    else
      let cursos := cursosDeDepartamento st did
      if !cursos.isEmpty then
        .error (.http 400 ("No se puede eliminar el departamento porque tiene "
          ++ toString cursos.length ++ " curso(s) asignado(s)"))
      else
        .ok ((), { st with
          departamentos := st.departamentos.eraseP (fun d => d.id == did) })

/-- Request body of POST /cursos/ (src/models.py `CursoCreate`). -/
structure CursoCreate where
  codigo : String
  nombre : String
  creditos : Int
  horario : String
  profesor_id : Nat
  departamento_id : Nat
deriving Repr, DecidableEq

/-- POST /cursos/ (src/curso.py `crear_curso`): sequential checks in
source order — code nonempty, code unique, name nonempty, credits in
1..6, schedule nonempty, professor exists and is active, department
exists — then insert. -/
def crear_curso (st : Store) (req : CursoCreate) :
    Except ApiError (Curso × Store) :=
  if (pyStrip req.codigo).isEmpty then
    .error (.http 400 "El codigo no puede estar vacio")
  else if ((st.cursos.filter (fun c => c.codigo == req.codigo)).head?).isSome then
    .error (.http 409 "El codigo del curso ya existe")
  else if (pyStrip req.nombre).isEmpty then
    .error (.http 400 "El nombre no puede estar vacío")
  else if req.creditos < 1 || req.creditos > 6 then
    .error (.http 400 "Los créditos deben estar entre 1 y 6")
  else if (pyStrip req.horario).isEmpty then
    .error (.http 400 "El horario no puede estar vacío")
  else
    match getProfesor st req.profesor_id with
    | none => .error (.http 404 "Profesor no encontrado")
    | some profesor =>
      if !profesor.activo then
        .error (.http 400 "El profesor no está activo")
      else
        match getDepartamento st req.departamento_id with
        | none => .error (.http 404 "Departamento no encontrado")
        | some _ =>
          let curso : Curso :=
            { id := freshId (st.cursos.map (fun c => c.id))
              codigo := req.codigo
              nombre := req.nombre
              creditos := req.creditos
              horario := req.horario
              profesor_id := req.profesor_id
              departamento_id := req.departamento_id }
          .ok (curso, { st with cursos := st.cursos ++ [curso] })

/-- Request body of PUT /cursos/{curso_id} (src/models.py `CursoUpdate`):
every field optional. -/
structure CursoUpdate where
  nombre : Option String := none
  creditos : Option Int := none
  horario : Option String := none
  profesor_id : Option Nat := none
deriving Repr, DecidableEq

/-- `setattr` application of the provided update fields onto the course
(src/curso.py lines 84-86). -/
def applyCursoUpdate (c : Curso) (u : CursoUpdate) : Curso :=
  { c with
    nombre := u.nombre.getD c.nombre
    creditos := u.creditos.getD c.creditos
    horario := u.horario.getD c.horario
    profesor_id := u.profesor_id.getD c.profesor_id }

/-- PUT /cursos/{curso_id} (src/curso.py `actualizar_curso`): 404 when
the course is missing; validate each provided field in source order; when
`profesor_id` is provided the professor must exist (404) and be active
(400); then apply the update in place. -/
def actualizar_curso (st : Store) (cid : Nat) (u : CursoUpdate) :
    Except ApiError (Curso × Store) :=
  match getCurso st cid with
  | none => .error (.http 404 "Curso no encontrado")
  | some c =>
    if u.nombre.elim false (fun s => (pyStrip s).isEmpty) then
      .error (.http 400 "El nombre no puede estar vacío")
    else if u.creditos.elim false (fun n => n < 1 || n > 6) then
      .error (.http 400 "Los créditos deben estar entre 1 y 6")
    else if u.horario.elim false (fun s => (pyStrip s).isEmpty) then
      .error (.http 400 "El horario no puede estar vacío")
    else
      match u.profesor_id with
      | some pid =>
        (match getProfesor st pid with
         | none => .error (.http 404 "Profesor no encontrado")
         | some profesor =>
           if !profesor.activo then
             .error (.http 400 "El profesor no está activo")
           else
             let c' := applyCursoUpdate c u
             .ok (c', { st with
               cursos := st.cursos.map (fun x => if x.id == cid then c' else x) }))
      | none =>
        let c' := applyCursoUpdate c u
        .ok (c', { st with
          cursos := st.cursos.map (fun x => if x.id == cid then c' else x) })

/-- Character-list version of `startswith`. -/
def listStarts : List Char → List Char → Bool
  | [], _ => true
  | _ :: _, [] => false
  | a :: as, b :: bs => a == b && listStarts as bs

/-- Character-list substring test. -/
def listHasInfix (pat : List Char) : List Char → Bool
  | [] => pat.isEmpty
  | c :: t => listStarts pat (c :: t) || listHasInfix pat t

/-- SQL `ilike '%pat%'`: case-insensitive substring match. -/
def ilikeContains (hay pat : String) : Bool :=
  listHasInfix (pyLower pat).toList (pyLower hay).toList

/-- GET /estudiantes/buscar/nombre (src/estudiantes.py
`buscar_por_nombre`): case-insensitive substring search over student
names; an empty match list is a 404, never an empty success. -/
def buscar_por_nombre (st : Store) (nombre : String) :
    Except ApiError (List Estudiante) :=
  let estudiantes := st.estudiantes.filter (fun e => ilikeContains e.nombre nombre)
  if estudiantes.isEmpty then
    .error (.http 404 ("No se encontraron estudiantes con '" ++ nombre
      ++ "' en su nombre"))
  else
    .ok estudiantes

/-- Modelled from the spec: no enrollment grade-update endpoint exists
under src/ — only the `MatriculaUpdate` declaration (src/models.py lines
124-126).  Spec §4.2: `aprobado` is derived and "must be recomputed
whenever `nota_final` changes, using threshold ≥ 3.0", and while the
grade is null the pass flag is null. -/
def aplicar_nota (m : Matricula) (nota : Option Rat) : Matricula :=
  { m with
    nota_final := nota
    aprobado := nota.map (fun n => decide ((3 : Rat) ≤ n)) }

/-! ## Helper lemmas -/

/-- `filterMap` with a function that succeeds on every element of the
list preserves the length. -/
theorem length_filterMap_of_isSome {α β : Type} (f : α → Option β) :
    ∀ l : List α, (∀ a ∈ l, (f a).isSome) → (l.filterMap f).length = l.length := by
  intro l
  induction l with
  | nil => intro _; rfl
  | cons a t ih =>
    intro h
    have ha := h a (by simp)
    rcases hb : f a with _ | b
    · rw [hb] at ha; simp at ha
    · simp only [List.filterMap_cons, hb, List.length_cons]
      rw [ih (fun x hx => h x (by simp [hx]))]

/-- When at most one element satisfies `p`, removing the first match is
the same as keeping every non-match. -/
theorem eraseP_eq_filter_not {α : Type} (p : α → Bool) :
    ∀ l : List α, (l.filter p).length ≤ 1 →
      l.eraseP p = l.filter (fun a => !(p a)) := by
  intro l
  induction l with
  | nil => intro _; rfl
  | cons a t ih =>
    intro h
    by_cases hp : p a
    · have ht : t.filter p = [] := by
        have : (t.filter p).length = 0 := by
          simp only [List.filter_cons, hp, if_pos, List.length_cons] at h
          omega
        exact List.length_eq_zero.mp this
      have htall : ∀ x ∈ t, ¬ p x = true := List.filter_eq_nil_iff.mp ht
      have : t.filter (fun a => !(p a)) = t := by
        apply List.filter_eq_self.mpr
        intro x hx
        simp [htall x hx]
      simp [List.eraseP_cons, hp, List.filter_cons, this]
    · have h' : (t.filter p).length ≤ 1 := by
        simpa [List.filter_cons, hp] using h
      simp [List.eraseP_cons, hp, List.filter_cons, ih h']

/-- `find?` commutes with mapping a function that does not change the
predicate's verdict. -/
theorem find?_map_of_pred {α : Type} (g : α → α) (p : α → Bool)
    (hg : ∀ x, p (g x) = p x) :
    ∀ l : List α, (l.map g).find? p = (l.find? p).map g := by
  intro l
  induction l with
  | nil => rfl
  | cons a t ih =>
    by_cases hp : p a
    · simp [List.find?_cons, hg, hp]
    · simp [List.find?_cons, hg, hp, ih]

/-- Stripping one error guard: if an `if`-guard returning an error
yields a success, the guard is false and the continuation yields that
success. -/
theorem if_error_eq_ok {α : Type} (c : Prop) [Decidable c] (e : ApiError)
    (rest : Except ApiError α) (v : α)
    (h : (if c then (Except.error e : Except ApiError α) else rest) = .ok v) :
    ¬c ∧ rest = .ok v := by
  by_cases hc : c
  · simp [hc] at h
  · exact ⟨hc, by simpa [hc] using h⟩

/-- The enroll-validation list is empty exactly when the student exists
and is active, the course exists, and no enrollment for the pair is
already persisted. -/
theorem matriculaErrores_eq_nil_iff (st : Store) (req : MatriculaCreate) :
    matriculaErrores st req = [] ↔
      (∃ e, getEstudiante st req.estudiante_id = some e ∧ e.activo = true) ∧
      (∃ c, getCurso st req.curso_id = some c) ∧
      matriculasDe st req.estudiante_id req.curso_id = [] := by
  unfold matriculaErrores
  cases he : getEstudiante st req.estudiante_id with
  | none => simp [he]
  | some e =>
    cases hc : getCurso st req.curso_id with
    | none => simp [he, hc]
    | some c =>
      by_cases ha : e.activo
      · cases hm : (matriculasDe st req.estudiante_id req.curso_id).head? with
        | none => simp [he, hc, ha, hm, List.head?_eq_none_iff.mp hm]
        | some m =>
          have : matriculasDe st req.estudiante_id req.curso_id ≠ [] := by
            intro hnil; rw [hnil] at hm; simp at hm
          simp [he, hc, ha, hm, this]
      · simp [he, hc, ha]

/-! ## Claim theorems -/

/-- C1: for every student S and course C in the store, a successful
`crear_matricula (S, C)` followed immediately by a second enroll of the
same pair fails with the already-enrolled error on the second call —
both through `crear_matricula` and through the packaged-router variant
`matricular_estudiante` — and exactly one Matrícula row for (S, C)
remains persisted. -/
theorem crear_matricula_twice (st : Store) (S C : Nat) (m : Matricula) (st' : Store)
    (hok : crear_matricula st ⟨S, C⟩ = .ok (m, st')) :
    (∃ curso, getCurso st' C = some curso ∧
       ∃ errs, crear_matricula st' ⟨S, C⟩ =
           .error (.httpAgg 400 "Errores de validación" errs) ∧
         ("El estudiante ya está matriculado en el curso " ++ curso.nombre) ∈ errs) ∧
    matricular_estudiante st' ⟨S, C⟩ =
      .error (.http 409 "El estudiante ya está matriculado en este curso") ∧
    (matriculasDe st' S C).length = 1 := by
  by_cases hEmpty : matriculaErrores st ⟨S, C⟩ = []
  · obtain ⟨⟨e, he, hact⟩, ⟨c, hc⟩, hnil⟩ :=
      (matriculaErrores_eq_nil_iff st ⟨S, C⟩).mp hEmpty
    simp only [crear_matricula, hEmpty, List.isEmpty_nil, if_true,
      Except.ok.injEq, Prod.mk.injEq] at hok
    obtain ⟨hm, hst⟩ := hok
    have hests : st'.estudiantes = st.estudiantes := by simp [← hst]
    have hcursos : st'.cursos = st.cursos := by simp [← hst]
    have hmats : st'.matriculas = st.matriculas ++ [m] := by simp [← hst, hm]
    have hmid : m.estudiante_id = S := by simp [← hm]
    have hmcid : m.curso_id = C := by simp [← hm]
    have he' : getEstudiante st' S = some e := by
      simp only [getEstudiante, hests]
      simpa [getEstudiante] using he
    have hc' : getCurso st' C = some c := by
      simp only [getCurso, hcursos]
      simpa [getCurso] using hc
    have hmDe : matriculasDe st' S C = [m] := by
      simp only [matriculasDe, hmats, List.filter_append]
      simp only [matriculasDe] at hnil
      simp [hnil, hmid, hmcid]
    have herr : matriculaErrores st' ⟨S, C⟩ =
        ["El estudiante ya está matriculado en el curso " ++ c.nombre] := by
      simp [matriculaErrores, he', hc', hact, hmDe]
    refine ⟨⟨c, hc', ?_⟩, ?_, ?_⟩
    · refine ⟨["El estudiante ya está matriculado en el curso " ++ c.nombre], ?_, ?_⟩
      · simp [crear_matricula, herr]
      · simp
    · simp [matricular_estudiante, he', hc', hmDe]
    · simp [hmDe]
  · simp [crear_matricula, List.isEmpty_eq_true, hEmpty] at hok

/-- Concrete store for the C1 witness: one active student, one course. -/
def stC1 : Store :=
  { estudiantes := [{ id := 1, cedula := "12345", nombre := "Ana",
                      email := "ana@u.co", semestre := "3", activo := true }]
    cursos := [{ id := 10, codigo := "MAT1", nombre := "Calculo", creditos := 3,
                 horario := "Lunes 8-10", profesor_id := 5, departamento_id := 2 }] }

/-- Store after the first successful enroll of the C1 witness. -/
def stC1' : Store :=
  { stC1 with matriculas := [{ estudiante_id := 1, curso_id := 10 }] }

/-- Witness for C1 at student 1, course 10. -/
theorem crear_matricula_twice_witness :
    (∃ curso, getCurso stC1' 10 = some curso ∧
       ∃ errs, crear_matricula stC1' ⟨1, 10⟩ =
           .error (.httpAgg 400 "Errores de validación" errs) ∧
         ("El estudiante ya está matriculado en el curso " ++ curso.nombre) ∈ errs) ∧
    matricular_estudiante stC1' ⟨1, 10⟩ =
      .error (.http 409 "El estudiante ya está matriculado en este curso") ∧
    (matriculasDe stC1' 1 10).length = 1 :=
  crear_matricula_twice stC1 1 10 { estudiante_id := 1, curso_id := 10 } stC1' rfl

/-- C2: whenever any of the step 1-3 enroll preconditions fails
(student missing or inactive, course missing, enrollment already
existing), `crear_matricula` returns the single aggregate 400 response
whose `errores` list contains the message of every failure that applies
— in particular, when more than one applies they are all collected and
the operation does not stop at the first one. -/
theorem crear_matricula_aggregates (st : Store) (req : MatriculaCreate)
    (hfail :
      getEstudiante st req.estudiante_id = none ∨
      (∃ e, getEstudiante st req.estudiante_id = some e ∧ e.activo = false) ∨
      getCurso st req.curso_id = none ∨
      ((∃ e, getEstudiante st req.estudiante_id = some e) ∧
       (∃ c, getCurso st req.curso_id = some c) ∧
       matriculasDe st req.estudiante_id req.curso_id ≠ [])) :
    ∃ errs,
      crear_matricula st req = .error (.httpAgg 400 "Errores de validación" errs) ∧
      (getEstudiante st req.estudiante_id = none →
        "Estudiante no encontrado" ∈ errs) ∧
      (∀ e, getEstudiante st req.estudiante_id = some e → e.activo = false →
        "El estudiante no está activo" ∈ errs) ∧
      (getCurso st req.curso_id = none → "Curso no encontrado" ∈ errs) ∧
      (∀ e c, getEstudiante st req.estudiante_id = some e →
        getCurso st req.curso_id = some c →
        matriculasDe st req.estudiante_id req.curso_id ≠ [] →
        ("El estudiante ya está matriculado en el curso " ++ c.nombre) ∈ errs) := by
  have hne : matriculaErrores st req ≠ [] := by
    intro h0
    obtain ⟨⟨e, he, hact⟩, ⟨c, hc⟩, hnil⟩ := (matriculaErrores_eq_nil_iff st req).mp h0
    rcases hfail with h | ⟨e', he', hact'⟩ | h | ⟨_, _, hne2⟩
    · simp [h] at he
    · rw [he] at he'
      simp at he'
      subst he'
      simp [hact] at hact'
    · simp [h] at hc
    · exact hne2 hnil
  refine ⟨matriculaErrores st req, ?_, ?_, ?_, ?_, ?_⟩
  · simp [crear_matricula, List.isEmpty_eq_true, hne]
  · intro h
    simp [matriculaErrores, h]
  · intro e he hact
    simp [matriculaErrores, he, hact]
  · intro hc
    simp [matriculaErrores, hc]
  · intro e c he hc hne2
    cases hl : matriculasDe st req.estudiante_id req.curso_id with
    | nil => exact absurd hl hne2
    | cons a t => simp [matriculaErrores, he, hc, hl]

/-- Inactive student used by the C2 witness. -/
def eC2 : Estudiante :=
  { id := 1, cedula := "54321", nombre := "Luis", email := "luis@u.co",
    semestre := "2", activo := false }

/-- Concrete store for the C2 witness: an inactive student who is
already enrolled in the existing course, so two independent
preconditions fail at once. -/
def stC2 : Store :=
  { estudiantes := [eC2]
    cursos := [{ id := 10, codigo := "FIS1", nombre := "Fisica", creditos := 4,
                 horario := "Martes 10-12", profesor_id := 5, departamento_id := 2 }]
    matriculas := [{ estudiante_id := 1, curso_id := 10 }] }

/-- Witness for C2: both the inactive-student failure and the
already-enrolled failure apply at once. -/
theorem crear_matricula_aggregates_witness :
    ∃ errs,
      crear_matricula stC2 ⟨1, 10⟩ = .error (.httpAgg 400 "Errores de validación" errs) ∧
      (getEstudiante stC2 (MatriculaCreate.mk 1 10).estudiante_id = none →
        "Estudiante no encontrado" ∈ errs) ∧
      (∀ e, getEstudiante stC2 (MatriculaCreate.mk 1 10).estudiante_id = some e →
        e.activo = false → "El estudiante no está activo" ∈ errs) ∧
      (getCurso stC2 (MatriculaCreate.mk 1 10).curso_id = none →
        "Curso no encontrado" ∈ errs) ∧
      (∀ e c, getEstudiante stC2 (MatriculaCreate.mk 1 10).estudiante_id = some e →
        getCurso stC2 (MatriculaCreate.mk 1 10).curso_id = some c →
        matriculasDe stC2 (MatriculaCreate.mk 1 10).estudiante_id
          (MatriculaCreate.mk 1 10).curso_id ≠ [] →
        ("El estudiante ya está matriculado en el curso " ++ c.nombre) ∈ errs) :=
  crear_matricula_aggregates stC2 ⟨1, 10⟩ (Or.inr (Or.inl ⟨eC2, rfl, rfl⟩))

/-- C3: deactivating an active student with N enrollment rows (each
referencing an existing course, as the foreign keys guarantee) deletes
exactly those N Matrícula rows, reports N in the response, keeps the
student record with `activo = false`, leaves courses, professors and
departments untouched, and a second deactivation fails with the
already-inactive 400 error (changing no state, since an error commits
nothing). -/
theorem eliminar_estudiante_cascades (st : Store) (sid : Nat) (e : Estudiante)
    (he : getEstudiante st sid = some e) (hact : e.activo = true)
    (hwf : ∀ m ∈ st.matriculas, m.estudiante_id = sid →
      (getCurso st m.curso_id).isSome) :
    ∃ resp st',
      eliminar_estudiante st sid = .ok (resp, st') ∧
      resp.cursos_desmatriculados =
        (st.matriculas.filter (fun m => m.estudiante_id == sid)).length ∧
      st'.matriculas = st.matriculas.filter (fun m => !(m.estudiante_id == sid)) ∧
      getEstudiante st' sid = some { e with activo := false } ∧
      st'.cursos = st.cursos ∧
      st'.profesores = st.profesores ∧
      st'.departamentos = st.departamentos ∧
      eliminar_estudiante st' sid =
        .error (.http 400 "El estudiante ya está inactivo") := by
  have hcount : (cursosDeEstudiante st sid).length =
      (st.matriculas.filter (fun m => m.estudiante_id == sid)).length := by
    apply length_filterMap_of_isSome
    intro m hm
    have hmem := List.mem_filter.mp hm
    exact hwf m hmem.1 (by simpa using hmem.2)
  have hsel : (if (cursosDeEstudiante st sid).length > 0 then
        st.matriculas.filter (fun m => !(m.estudiante_id == sid))
      else st.matriculas) =
      st.matriculas.filter (fun m => !(m.estudiante_id == sid)) := by
    by_cases hpos : (cursosDeEstudiante st sid).length > 0
    · simp [hpos]
    · have h0 : (st.matriculas.filter (fun m => m.estudiante_id == sid)).length = 0 := by
        omega
      have hfil : st.matriculas.filter (fun m => m.estudiante_id == sid) = [] :=
        List.length_eq_zero.mp h0
      have hself : st.matriculas.filter (fun m => !(m.estudiante_id == sid)) =
          st.matriculas := by
        apply List.filter_eq_self.mpr
        intro a ha
        have := List.filter_eq_nil_iff.mp hfil a ha
        simpa using this
      simp [hpos, hself]
  have hg : ∀ x : Estudiante,
      ((if x.id == sid then { x with activo := false } else x).id == sid) =
        (x.id == sid) := by
    intro x
    by_cases hx : (x.id == sid) = true <;> simp [hx]
  have hfind := find?_map_of_pred
    (fun x => if x.id == sid then { x with activo := false } else x)
    (fun x => x.id == sid) hg st.estudiantes
  have hpe : e.id = sid := by
    have he2 : st.estudiantes.find? (fun x => x.id == sid) = some e := he
    have h3 := List.find?_some he2
    simpa using h3
  have hge : getEstudiante ({ st with
      matriculas := st.matriculas.filter (fun m => !(m.estudiante_id == sid))
      estudiantes := st.estudiantes.map
        (fun x => if x.id == sid then { x with activo := false } else x) }) sid =
      some { e with activo := false } := by
    simp only [getEstudiante] at he ⊢
    rw [hfind, he]
    simp [hpe]
  refine ⟨{ mensaje := "Estudiante desactivado exitosamente"
            estudiante_id := sid
            nombre := e.nombre
            activo := false
            cursos_desmatriculados := (cursosDeEstudiante st sid).length },
          { st with
            matriculas := st.matriculas.filter (fun m => !(m.estudiante_id == sid))
            estudiantes := st.estudiantes.map
              (fun x => if x.id == sid then { x with activo := false } else x) },
          ?_, hcount, rfl, hge, rfl, rfl, rfl, ?_⟩
  · simp only [eliminar_estudiante, he, hact, if_true]
    rw [hsel]
  · simp only [eliminar_estudiante, hge]
    simp

/-- Active student used by the C3 witness. -/
def eC3 : Estudiante :=
  { id := 1, cedula := "11111", nombre := "Sara", email := "sara@u.co",
    semestre := "5", activo := true }

/-- Concrete store for the C3 witness: one active student enrolled in
two existing courses. -/
def stC3 : Store :=
  { estudiantes := [eC3]
    cursos := [{ id := 10, codigo := "MAT1", nombre := "Calculo", creditos := 3,
                 horario := "Lunes 8-10", profesor_id := 5, departamento_id := 2 },
               { id := 11, codigo := "QUI1", nombre := "Quimica", creditos := 2,
                 horario := "Jueves 8-10", profesor_id := 5, departamento_id := 2 }]
    matriculas := [{ estudiante_id := 1, curso_id := 10 },
                   { estudiante_id := 1, curso_id := 11 }] }

/-- Witness for C3 at a student with two enrollments. -/
theorem eliminar_estudiante_cascades_witness :
    ∃ resp st',
      eliminar_estudiante stC3 1 = .ok (resp, st') ∧
      resp.cursos_desmatriculados =
        (stC3.matriculas.filter (fun m => m.estudiante_id == 1)).length ∧
      st'.matriculas = stC3.matriculas.filter (fun m => !(m.estudiante_id == 1)) ∧
      getEstudiante st' 1 = some { eC3 with activo := false } ∧
      st'.cursos = stC3.cursos ∧
      st'.profesores = stC3.profesores ∧
      st'.departamentos = stC3.departamentos ∧
      eliminar_estudiante st' 1 =
        .error (.http 400 "El estudiante ya está inactivo") :=
  eliminar_estudiante_cascades stC3 1 eC3 rfl rfl (by decide)

/-- C4: `crear_matricula` never creates an enrollment referencing an
inactive entity.  On success the referenced student exists with
`activo = true` and the referenced course exists — and since the course
model (src/models.py `CursoBase`) carries no `activo` flag, a course has
no inactive state that an enrollment could reference.  Conversely, when
the referenced student is present but inactive the request is refused
with the aggregate 400 error carrying the inactive-student message. -/
theorem crear_matricula_requires_active (st : Store) (req : MatriculaCreate) :
    (∀ m st', crear_matricula st req = .ok (m, st') →
      (∃ e, getEstudiante st req.estudiante_id = some e ∧ e.activo = true) ∧
      (∃ c, getCurso st req.curso_id = some c)) ∧
    (∀ e, getEstudiante st req.estudiante_id = some e → e.activo = false →
      ∃ errs, crear_matricula st req =
          .error (.httpAgg 400 "Errores de validación" errs) ∧
        "El estudiante no está activo" ∈ errs) := by
  constructor
  · intro m st' hok
    by_cases hEmpty : matriculaErrores st req = []
    · obtain ⟨he, hc, _⟩ := (matriculaErrores_eq_nil_iff st req).mp hEmpty
      exact ⟨he, hc⟩
    · simp [crear_matricula, List.isEmpty_eq_true, hEmpty] at hok
  · intro e he hact
    have hne : matriculaErrores st req ≠ [] := by
      intro h0
      obtain ⟨⟨e', he', hact'⟩, _, _⟩ := (matriculaErrores_eq_nil_iff st req).mp h0
      rw [he] at he'
      simp at he'
      subst he'
      simp [hact] at hact'
    refine ⟨matriculaErrores st req, ?_, ?_⟩
    · simp [crear_matricula, List.isEmpty_eq_true, hne]
    · simp [matriculaErrores, he, hact]

/-- Witness for C4: a successful enroll in `stC1` references an active
student and an existing course, and the inactive student of `stC2` is
refused. -/
theorem crear_matricula_requires_active_witness :
    ((∃ e, getEstudiante stC1 (MatriculaCreate.mk 1 10).estudiante_id = some e ∧
        e.activo = true) ∧
     (∃ c, getCurso stC1 (MatriculaCreate.mk 1 10).curso_id = some c)) ∧
    (∃ errs, crear_matricula stC2 ⟨1, 10⟩ =
        .error (.httpAgg 400 "Errores de validación" errs) ∧
      "El estudiante no está activo" ∈ errs) :=
  ⟨(crear_matricula_requires_active stC1 ⟨1, 10⟩).1
      { estudiante_id := 1, curso_id := 10 } stC1' rfl,
   (crear_matricula_requires_active stC2 ⟨1, 10⟩).2 eC2 rfl rfl⟩

/-- C5: after a grade update (spec-modelled `aplicar_nota`, as no grade
endpoint exists under src/), the derived `aprobado` flag is `true`
exactly when the stored `nota_final` is present and at least 3.0,
`false` exactly when it is present and below 3.0, and null exactly while
`nota_final` is null. -/
theorem aplicar_nota_aprobado (m : Matricula) (nota : Option Rat) :
    ((aplicar_nota m nota).aprobado = some true ↔
      ∃ n, (aplicar_nota m nota).nota_final = some n ∧ (3 : Rat) ≤ n) ∧
    ((aplicar_nota m nota).aprobado = some false ↔
      ∃ n, (aplicar_nota m nota).nota_final = some n ∧ n < 3) ∧
    ((aplicar_nota m nota).aprobado = none ↔
      (aplicar_nota m nota).nota_final = none) := by
  cases nota with
  | none => simp [aplicar_nota]
  | some n =>
    by_cases h : (3 : Rat) ≤ n
    · have h' : ¬ n < 3 := not_lt.mpr h
      simp [aplicar_nota, h, h']
    · have h' : n < 3 := not_le.mp h
      simp [aplicar_nota, h, h']

/-- Witness for C5 at grade 3.5: the threshold comparison evaluates and
the flag is recomputed to `true`. -/
theorem aplicar_nota_aprobado_witness :
    (((aplicar_nota { estudiante_id := 1, curso_id := 10 } (some (7 / 2))).aprobado =
        some true ↔
      ∃ n, (aplicar_nota { estudiante_id := 1, curso_id := 10 }
          (some (7 / 2))).nota_final = some n ∧ (3 : Rat) ≤ n) ∧
     ((aplicar_nota { estudiante_id := 1, curso_id := 10 } (some (7 / 2))).aprobado =
        some false ↔
      ∃ n, (aplicar_nota { estudiante_id := 1, curso_id := 10 }
          (some (7 / 2))).nota_final = some n ∧ n < 3) ∧
     ((aplicar_nota { estudiante_id := 1, curso_id := 10 } (some (7 / 2))).aprobado =
        none ↔
      (aplicar_nota { estudiante_id := 1, curso_id := 10 }
          (some (7 / 2))).nota_final = none)) :=
  aplicar_nota_aprobado { estudiante_id := 1, curso_id := 10 } (some (7 / 2))

/-- C6: deleting a department fails with the 400 dependents error while
any professor or any course references it (an error commits nothing, so
the department stays), and when it has zero professors and zero courses
the deletion succeeds and removes exactly the department row, leaving
every other table unchanged. -/
theorem eliminar_departamento_guard (st : Store) (did : Nat) (d : Departamento)
    (hd : getDepartamento st did = some d)
    (huniq : (st.departamentos.filter (fun x => x.id == did)).length ≤ 1) :
    (profesoresDe st did ≠ [] →
      eliminar_departamento st did = .error (.http 400
        ("No se puede eliminar el departamento porque tiene "
          ++ toString (profesoresDe st did).length ++ " profesor(es) asignado(s)"))) ∧
    (profesoresDe st did = [] → cursosDeDepartamento st did ≠ [] →
      eliminar_departamento st did = .error (.http 400
        ("No se puede eliminar el departamento porque tiene "
          ++ toString (cursosDeDepartamento st did).length ++ " curso(s) asignado(s)"))) ∧
    (profesoresDe st did = [] → cursosDeDepartamento st did = [] →
      ∃ st', eliminar_departamento st did = .ok ((), st') ∧
        st'.departamentos = st.departamentos.filter (fun x => !(x.id == did)) ∧
        st'.profesores = st.profesores ∧
        st'.cursos = st.cursos ∧
        st'.estudiantes = st.estudiantes ∧
        st'.matriculas = st.matriculas) := by
  refine ⟨?_, ?_, ?_⟩
  · intro hp
    have hp' : (profesoresDe st did).isEmpty = false := by
      cases hl : profesoresDe st did with
      | nil => exact absurd hl hp
      | cons a t => rfl
    simp [eliminar_departamento, hd, hp']
  · intro hp hc
    have hp' : (profesoresDe st did).isEmpty = true := by
      simp [List.isEmpty_eq_true, hp]
    have hc' : (cursosDeDepartamento st did).isEmpty = false := by
      cases hl : cursosDeDepartamento st did with
      | nil => exact absurd hl hc
      | cons a t => rfl
    simp [eliminar_departamento, hd, hp', hc']
  · intro hp hc
    have hp' : (profesoresDe st did).isEmpty = true := by
      simp [List.isEmpty_eq_true, hp]
    have hc' : (cursosDeDepartamento st did).isEmpty = true := by
      simp [List.isEmpty_eq_true, hc]
    refine ⟨{ st with
        departamentos := st.departamentos.filter (fun x => !(x.id == did)) },
      ?_, rfl, rfl, rfl, rfl, rfl⟩
    simp only [eliminar_departamento, hd, hp', hc', Bool.not_true, if_false]
    rw [eraseP_eq_filter_not _ _ huniq]
    simp

/-- Dependency-free department used by the C6 witness. -/
def dC6a : Departamento := { id := 1, codigo := "ING", nombre := "Ingenieria" }

/-- Department with one professor, used by the C6 witness. -/
def dC6b : Departamento := { id := 2, codigo := "HUM", nombre := "Humanidades" }

/-- Concrete store for the C6 witness. -/
def stC6 : Store :=
  { departamentos := [dC6a, dC6b]
    profesores := [{ id := 7, cedula := "99999", nombre := "Eva", email := "eva@u.co",
                     titulo := "PhD", activo := true, departamento_id := some 2 }] }

/-- Witness for C6: deleting department 2 (one professor) fails with the
dependents error; deleting department 1 (no dependents) removes exactly
its row. -/
theorem eliminar_departamento_guard_witness :
    eliminar_departamento stC6 2 = .error (.http 400
      ("No se puede eliminar el departamento porque tiene "
        ++ toString (profesoresDe stC6 2).length ++ " profesor(es) asignado(s)")) ∧
    (∃ st', eliminar_departamento stC6 1 = .ok ((), st') ∧
      st'.departamentos = stC6.departamentos.filter (fun x => !(x.id == 1)) ∧
      st'.profesores = stC6.profesores ∧
      st'.cursos = stC6.cursos ∧
      st'.estudiantes = stC6.estudiantes ∧
      st'.matriculas = stC6.matriculas) :=
  ⟨(eliminar_departamento_guard stC6 2 dC6b rfl (by decide)).1 (by decide),
   (eliminar_departamento_guard stC6 1 dC6a rfl (by decide)).2.2 (by decide) rfl⟩

/-- A successful `crear_curso` implies the assigned professor exists and
is active, and the created course carries that professor id. -/
theorem crear_curso_ok_prof (st : Store) (req : CursoCreate) (c : Curso) (st' : Store)
    (hok : crear_curso st req = .ok (c, st')) :
    ∃ p, getProfesor st req.profesor_id = some p ∧ p.activo = true ∧
      c.profesor_id = req.profesor_id := by
  simp only [crear_curso] at hok
  obtain ⟨h1, hok⟩ := if_error_eq_ok _ _ _ _ hok
  obtain ⟨h2, hok⟩ := if_error_eq_ok _ _ _ _ hok
  obtain ⟨h3, hok⟩ := if_error_eq_ok _ _ _ _ hok
  obtain ⟨h4, hok⟩ := if_error_eq_ok _ _ _ _ hok
  obtain ⟨h5, hok⟩ := if_error_eq_ok _ _ _ _ hok
  cases hp : getProfesor st req.profesor_id with
  | none => rw [hp] at hok; simp at hok
  | some p =>
    rw [hp] at hok
    simp only at hok
    obtain ⟨h6, hok⟩ := if_error_eq_ok _ _ _ _ hok
    cases hd : getDepartamento st req.departamento_id with
    | none => rw [hd] at hok; simp at hok
    | some d =>
      rw [hd] at hok
      simp only [Except.ok.injEq, Prod.mk.injEq] at hok
      refine ⟨p, rfl, ?_, ?_⟩
      · simpa using h6
      · simp [← hok.1]

/-- A successful `actualizar_curso` that reassigns the professor implies
the new professor exists and is active, and the updated course carries
the new professor id. -/
theorem actualizar_curso_ok_prof (st : Store) (cid : Nat) (u : CursoUpdate)
    (c' : Curso) (st' : Store) (hok : actualizar_curso st cid u = .ok (c', st'))
    (pid : Nat) (hpid : u.profesor_id = some pid) :
    ∃ p, getProfesor st pid = some p ∧ p.activo = true ∧
      c'.profesor_id = pid := by
  simp only [actualizar_curso] at hok
  cases hc : getCurso st cid with
  | none => rw [hc] at hok; simp at hok
  | some c =>
    rw [hc] at hok
    simp only at hok
    obtain ⟨h1, hok⟩ := if_error_eq_ok _ _ _ _ hok
    obtain ⟨h2, hok⟩ := if_error_eq_ok _ _ _ _ hok
    obtain ⟨h3, hok⟩ := if_error_eq_ok _ _ _ _ hok
    rw [hpid] at hok
    simp only at hok
    cases hp : getProfesor st pid with
    | none => rw [hp] at hok; simp at hok
    | some p =>
      rw [hp] at hok
      simp only at hok
      obtain ⟨h6, hok⟩ := if_error_eq_ok _ _ _ _ hok
      simp only [Except.ok.injEq, Prod.mk.injEq] at hok
      refine ⟨p, rfl, ?_, ?_⟩
      · simpa using h6
      · simp [← hok.1, applyCursoUpdate, hpid]

/-- C7: both at course creation and at course update with professor
reassignment, the referenced professor must exist and be active — on
success the assigned professor is present and active, and when the
professor is missing or inactive the operation fails (so no course is
created or modified, since an error commits nothing). -/
theorem curso_requiere_profesor_activo (st : Store) (req : CursoCreate)
    (cid : Nat) (u : CursoUpdate) :
    (∀ c st', crear_curso st req = .ok (c, st') →
      ∃ p, getProfesor st req.profesor_id = some p ∧ p.activo = true ∧
        c.profesor_id = req.profesor_id) ∧
    ((getProfesor st req.profesor_id = none ∨
      (∃ p, getProfesor st req.profesor_id = some p ∧ p.activo = false)) →
      ∃ err, crear_curso st req = .error err) ∧
    (∀ c' st', actualizar_curso st cid u = .ok (c', st') →
      ∀ pid, u.profesor_id = some pid →
        ∃ p, getProfesor st pid = some p ∧ p.activo = true ∧
          c'.profesor_id = pid) ∧
    (∀ pid, u.profesor_id = some pid →
      (getProfesor st pid = none ∨
       (∃ p, getProfesor st pid = some p ∧ p.activo = false)) →
      ∃ err, actualizar_curso st cid u = .error err) := by
  refine ⟨fun c st' hok => crear_curso_ok_prof st req c st' hok, ?_,
    fun c' st' hok pid hpid => actualizar_curso_ok_prof st cid u c' st' hok pid hpid,
    ?_⟩
  · intro hbad
    cases hres : crear_curso st req with
    | error err => exact ⟨err, rfl⟩
    | ok v =>
      obtain ⟨p, hp, hact, _⟩ := crear_curso_ok_prof st req v.1 v.2 hres
      rcases hbad with hnone | ⟨q, hq, hqact⟩
      · rw [hnone] at hp
        cases hp
      · rw [hq] at hp
        simp at hp
        subst hp
        simp [hact] at hqact
  · intro pid hpid hbad
    cases hres : actualizar_curso st cid u with
    | error err => exact ⟨err, rfl⟩
    | ok v =>
      obtain ⟨p, hp, hact, _⟩ := actualizar_curso_ok_prof st cid u v.1 v.2 hres pid hpid
      rcases hbad with hnone | ⟨q, hq, hqact⟩
      · rw [hnone] at hp
        cases hp
      · rw [hq] at hp
        simp at hp
        subst hp
        simp [hact] at hqact

/-- Active professor used by the C7 witness. -/
def pC7 : Profesor :=
  { id := 5, cedula := "77777", nombre := "Mario", email := "mario@u.co",
    titulo := "MSc", activo := true, departamento_id := some 2 }

/-- Inactive professor used by the C7 witness. -/
def pC7i : Profesor :=
  { id := 6, cedula := "88888", nombre := "Nora", email := "nora@u.co",
    titulo := "PhD", activo := false, departamento_id := some 2 }

/-- Existing course used by the C7 witness. -/
def cC7 : Curso :=
  { id := 1, codigo := "MAT1", nombre := "Calculo", creditos := 3,
    horario := "Lunes 8-10", profesor_id := 5, departamento_id := 2 }

/-- Concrete store for the C7 witness. -/
def stC7 : Store :=
  { profesores := [pC7, pC7i]
    departamentos := [{ id := 2, codigo := "ING", nombre := "Ingenieria" }]
    cursos := [cC7] }

/-- Valid course-creation request of the C7 witness. -/
def reqC7 : CursoCreate :=
  { codigo := "FIS2", nombre := "Fisica", creditos := 3,
    horario := "Martes 8-10", profesor_id := 5, departamento_id := 2 }

/-- Course-creation request referencing the inactive professor. -/
def reqC7bad : CursoCreate := { reqC7 with codigo := "FIS3", profesor_id := 6 }

/-- The course produced by the successful creation of the C7 witness. -/
def cNuevoC7 : Curso :=
  { id := 2, codigo := "FIS2", nombre := "Fisica", creditos := 3,
    horario := "Martes 8-10", profesor_id := 5, departamento_id := 2 }

/-- Update reassigning to the active professor. -/
def uC7 : CursoUpdate := { profesor_id := some 5 }

/-- Update reassigning to the inactive professor. -/
def uC7bad : CursoUpdate := { profesor_id := some 6 }

/-- Witness for C7: creation and reassignment succeed with the active
professor and fail with the inactive one. -/
theorem curso_requiere_profesor_activo_witness :
    (∃ p, getProfesor stC7 reqC7.profesor_id = some p ∧ p.activo = true ∧
      cNuevoC7.profesor_id = reqC7.profesor_id) ∧
    (∃ err, crear_curso stC7 reqC7bad = .error err) ∧
    (∃ p, getProfesor stC7 5 = some p ∧ p.activo = true ∧
      (applyCursoUpdate cC7 uC7).profesor_id = 5) ∧
    (∃ err, actualizar_curso stC7 1 uC7bad = .error err) :=
  ⟨(curso_requiere_profesor_activo stC7 reqC7 1 uC7).1 cNuevoC7
      { stC7 with cursos := stC7.cursos ++ [cNuevoC7] } rfl,
   (curso_requiere_profesor_activo stC7 reqC7bad 1 uC7).2.1
      (Or.inr ⟨pC7i, rfl, rfl⟩),
   (curso_requiere_profesor_activo stC7 reqC7 1 uC7).2.2.1 (applyCursoUpdate cC7 uC7)
      { stC7 with cursos := [applyCursoUpdate cC7 uC7] } rfl 5 rfl,
   (curso_requiere_profesor_activo stC7 reqC7 1 uC7bad).2.2.2 6 rfl
      (Or.inr ⟨pC7i, rfl, rfl⟩)⟩

/-- C8: department codes are uppercased before the uniqueness check and
before persistence, and code lookup uppercases its query key — so a
department created with code `c` is found by `buscar_por_codigo` under
any case variant `v` of `c` (any `v` with the same uppercasing), and the
stored code is the uppercased one. -/
theorem crear_departamento_roundtrip (st : Store) (req : DepartamentoCreate)
    (d : Departamento) (st' : Store) (v : String)
    (hok : crear_departamento st req = .ok (d, st'))
    (hv : pyUpper v = pyUpper req.codigo) :
    d.codigo = pyUpper req.codigo ∧ buscar_por_codigo st' v = .ok d := by
  by_cases hErr : departamentoErrores st (pyUpper req.codigo) req.nombre = []
  · have hfil : st.departamentos.filter (fun x => x.codigo == pyUpper req.codigo) = [] := by
      by_cases h1 : (pyStrip (pyUpper req.codigo)).isEmpty
      · simp [departamentoErrores, h1] at hErr
      · by_cases h2 : pyIsAlpha (pyUpper req.codigo)
        · by_cases h3 : (pyUpper req.codigo).length < 2
          · simp [departamentoErrores, h1, h2, h3] at hErr
          · by_cases h4 : (pyUpper req.codigo).length > 5
            · simp [departamentoErrores, h1, h2, h3, h4] at hErr
            · cases h5 : (st.departamentos.filter
                  (fun x => x.codigo == pyUpper req.codigo)).head? with
              | none => exact List.head?_eq_none_iff.mp h5
              | some x => simp [departamentoErrores, h1, h2, h3, h4, h5] at hErr
        · simp [departamentoErrores, h1, h2] at hErr
    simp only [crear_departamento, hErr, List.isEmpty_nil, if_true,
      Except.ok.injEq, Prod.mk.injEq] at hok
    obtain ⟨hd, hst⟩ := hok
    have hdcod : d.codigo = pyUpper req.codigo := by simp [← hd]
    have hdeps : st'.departamentos = st.departamentos ++ [d] := by
      simp [← hst, hd]
    refine ⟨hdcod, ?_⟩
    simp only [buscar_por_codigo, hv, hdeps, List.filter_append, hfil]
    simp [hdcod]
  · simp [crear_departamento, List.isEmpty_eq_true, hErr] at hok

/-- Department produced by the C8 witness creation. -/
def dC8 : Departamento := { id := 1, codigo := "ING", nombre := "Ingenieria" }

/-- Store after the C8 witness creation. -/
def stC8 : Store := { departamentos := [dC8] }

/-- Witness for C8: creating code "ing" stores "ING" and the lookup with
the case variant "InG" finds it. -/
theorem crear_departamento_roundtrip_witness :
    dC8.codigo = pyUpper "ing" ∧ buscar_por_codigo stC8 "InG" = .ok dC8 :=
  crear_departamento_roundtrip {} ⟨"ing", "Ingenieria"⟩ dC8 stC8 "InG"
    (by rfl) (by decide)

/-- C9: lookup operations that match zero records on a valid query fail
with a 404 instead of returning an empty list — shown for the substring
name search over students and for listing the enrollments of an existing
course: a success is never the empty list, and a zero-match query
produces the 404 error. -/
theorem busqueda_vacia_not_found (st : Store) (nombre : String) (cid : Nat) :
    (∀ l, buscar_por_nombre st nombre = .ok l → l ≠ []) ∧
    (st.estudiantes.filter (fun e => ilikeContains e.nombre nombre) = [] →
      buscar_por_nombre st nombre = .error (.http 404
        ("No se encontraron estudiantes con '" ++ nombre ++ "' en su nombre"))) ∧
    (∀ l, buscar_matriculas_por_curso st cid = .ok l → l ≠ []) ∧
    (∀ c, getCurso st cid = some c →
      st.matriculas.filter (fun m => m.curso_id == cid) = [] →
      buscar_matriculas_por_curso st cid =
        .error (.http 404 "No hay estudiantes matriculados en este curso")) := by
  refine ⟨?_, ?_, ?_, ?_⟩
  · intro l hok
    by_cases h : (st.estudiantes.filter (fun e => ilikeContains e.nombre nombre)).isEmpty
    · simp [buscar_por_nombre, h] at hok
    · simp only [buscar_por_nombre, if_neg h, Except.ok.injEq] at hok
      subst hok
      intro hnil
      exact h (by rw [hnil]; rfl)
  · intro hfil
    simp [buscar_por_nombre, hfil]
  · intro l hok
    cases hc : getCurso st cid with
    | none => simp [buscar_matriculas_por_curso, hc] at hok
    | some c =>
      by_cases h : (st.matriculas.filter (fun m => m.curso_id == cid)).isEmpty
      · simp [buscar_matriculas_por_curso, hc, h] at hok
      · simp only [buscar_matriculas_por_curso, hc, if_neg h,
          Except.ok.injEq] at hok
        subst hok
        intro hnil
        exact h (by rw [hnil]; rfl)
  · intro c hc hfil
    simp [buscar_matriculas_por_curso, hc, hfil]

/-- Student matched by the C9 witness search. -/
def eC9 : Estudiante :=
  { id := 1, cedula := "12345", nombre := "Ana", email := "ana@u.co",
    semestre := "3", activo := true }

/-- Concrete store for the C9 witness: one student, one course with one
enrollment and one course with none. -/
def stC9 : Store :=
  { estudiantes := [eC9]
    cursos := [{ id := 10, codigo := "MAT1", nombre := "Calculo", creditos := 3,
                 horario := "Lunes 8-10", profesor_id := 5, departamento_id := 2 },
               { id := 11, codigo := "QUI1", nombre := "Quimica", creditos := 2,
                 horario := "Jueves 8-10", profesor_id := 5, departamento_id := 2 }]
    matriculas := [{ estudiante_id := 1, curso_id := 10 }] }

/-- Witness for C9: the non-empty matches are non-empty successes, and
the zero-match name search and the enrollment listing of the empty
course both produce 404 errors. -/
theorem busqueda_vacia_not_found_witness :
    ([eC9] ≠ []) ∧
    (buscar_por_nombre stC9 "zz" = .error (.http 404
      ("No se encontraron estudiantes con '" ++ "zz" ++ "' en su nombre"))) ∧
    (([{ estudiante_id := 1, curso_id := 10 }] : List Matricula) ≠ []) ∧
    (buscar_matriculas_por_curso stC9 11 =
      .error (.http 404 "No hay estudiantes matriculados en este curso")) :=
  ⟨(busqueda_vacia_not_found stC9 "an" 10).1 [eC9] (by rfl),
   (busqueda_vacia_not_found stC9 "zz" 10).2.1 (by decide),
   (busqueda_vacia_not_found stC9 "an" 10).2.2.1 [{ estudiante_id := 1, curso_id := 10 }]
     (by rfl),
   (busqueda_vacia_not_found stC9 "an" 11).2.2.2
     { id := 11, codigo := "QUI1", nombre := "Quimica", creditos := 2,
       horario := "Jueves 8-10", profesor_id := 5, departamento_id := 2 }
     (by decide) (by decide)⟩

/-- C10: deleting an existing enrollment (S, C) — with at most one row
per composite key, as the primary key guarantees — removes exactly that
row: the surviving enrollment table is precisely the rows with a
different key, every other enrollment is still present, and the student,
professor, department and course tables are untouched. -/
theorem eliminar_matricula_frame (st : Store) (S C : Nat) (m : Matricula)
    (hm : getMatricula st S C = some m)
    (huniq : (st.matriculas.filter
      (fun x => x.estudiante_id == S && x.curso_id == C)).length ≤ 1) :
    ∃ resp st', eliminar_matricula st S C = .ok (resp, st') ∧
      st'.matriculas = st.matriculas.filter
        (fun x => !(x.estudiante_id == S && x.curso_id == C)) ∧
      m ∉ st'.matriculas ∧
      (∀ x ∈ st.matriculas, ¬(x.estudiante_id = S ∧ x.curso_id = C) →
        x ∈ st'.matriculas) ∧
      st'.estudiantes = st.estudiantes ∧
      st'.profesores = st.profesores ∧
      st'.departamentos = st.departamentos ∧
      st'.cursos = st.cursos := by
  have herase : st.matriculas.eraseP
      (fun x => x.estudiante_id == S && x.curso_id == C) =
      st.matriculas.filter (fun x => !(x.estudiante_id == S && x.curso_id == C)) :=
    eraseP_eq_filter_not _ _ huniq
  have hkey : (m.estudiante_id == S && m.curso_id == C) = true := by
    have hm2 : st.matriculas.find?
        (fun x => x.estudiante_id == S && x.curso_id == C) = some m := hm
    have h3 := List.find?_some hm2
    simpa using h3
  refine ⟨{ mensaje := "Matrícula eliminada exitosamente"
            estudiante := (getEstudiante st S).elim "Desconocido" (fun e => e.nombre)
            curso := (getCurso st C).elim "Desconocido" (fun c => c.nombre) },
          { st with
            matriculas :=
              st.matriculas.filter
                (fun x => !(x.estudiante_id == S && x.curso_id == C)) },
          ?_, rfl, ?_, ?_, rfl, rfl, rfl, rfl⟩
  · simp only [eliminar_matricula, hm]
    rw [herase]
  · intro hmem
    have := (List.mem_filter.mp hmem).2
    simp [hkey] at this
  · intro x hx hneq
    apply List.mem_filter.mpr
    refine ⟨hx, ?_⟩
    rcases not_and_or.mp hneq with h | h <;> simp [h]

/-- The enrollment removed by the C10 witness. -/
def mC10 : Matricula := { estudiante_id := 1, curso_id := 10 }

/-- Concrete store for the C10 witness: every table non-empty, two
enrollments. -/
def stC10 : Store :=
  { estudiantes := [{ id := 1, cedula := "12345", nombre := "Ana",
                      email := "ana@u.co", semestre := "3", activo := true }]
    profesores := [{ id := 5, cedula := "77777", nombre := "Mario",
                     email := "mario@u.co", titulo := "MSc", activo := true,
                     departamento_id := some 2 }]
    departamentos := [{ id := 2, codigo := "ING", nombre := "Ingenieria" }]
    cursos := [{ id := 10, codigo := "MAT1", nombre := "Calculo", creditos := 3,
                 horario := "Lunes 8-10", profesor_id := 5, departamento_id := 2 },
               { id := 11, codigo := "QUI1", nombre := "Quimica", creditos := 2,
                 horario := "Jueves 8-10", profesor_id := 5, departamento_id := 2 }]
    matriculas := [mC10, { estudiante_id := 1, curso_id := 11 }] }

/-- Witness for C10 at enrollment (1, 10) of `stC10`. -/
theorem eliminar_matricula_frame_witness :
    ∃ resp st', eliminar_matricula stC10 1 10 = .ok (resp, st') ∧
      st'.matriculas = stC10.matriculas.filter
        (fun x => !(x.estudiante_id == 1 && x.curso_id == 10)) ∧
      mC10 ∉ st'.matriculas ∧
      (∀ x ∈ stC10.matriculas, ¬(x.estudiante_id = 1 ∧ x.curso_id = 10) →
        x ∈ st'.matriculas) ∧
      st'.estudiantes = stC10.estudiantes ∧
      st'.profesores = stC10.profesores ∧
      st'.departamentos = stC10.departamentos ∧
      st'.cursos = stC10.cursos :=
  eliminar_matricula_frame stC10 1 10 mC10 rfl (by decide)

end Parcial2
